import Mathlib

/-!
Shallow embedding of the Quantum Pay frontend core (api-service.js,
auth-handler.js, transaction-handler.js) and verification of its
specification claims.  Pure computations of the JavaScript source are
translated into executable Lean definitions; instance fields become
explicit state passing, network effects become values describing the
request that would be issued, and JavaScript truthiness of strings and
of `Option` (null/undefined) is modelled explicitly.
-/

namespace QuantumPay

/-! ## Data model -/

/-- A transaction record as handled by transaction-handler.js. -/
structure Transaction where
  id : String
  amount : Int
  currency : String
  sender_user_id : String
  receiver_user_id : String
  status : String
  transaction_date : Int
  otp_code : String
  otp_verified : Bool
  deriving DecidableEq

/-- The statistics record returned by `calculateTransactionStats`. -/
structure TransactionStats where
  balance : Int
  income : Int
  expenses : Int
  pendingCount : Nat
  deriving DecidableEq

/-- JavaScript truthiness of a possibly-null/undefined string:
null/undefined and the empty string are falsy. -/
def truthyStr : Option String → Bool
  | some s => s ≠ ""
  | none => false

/-- JavaScript `a || b` on possibly-null/undefined strings. -/
def jsStringOr (a b : Option String) : Option String :=
  match a with
  | some s => if s ≠ "" then some s else b
  | none => b

/-! ## calculateTransactionStats (transaction-handler.js lines 315-333) -/

/-- `TransactionHandler.calculateTransactionStats`, with the instance
fields `this.transactions` and `this.currentUser.id` passed explicitly. -/
def calculateTransactionStats (transactions : List Transaction)
    (currentUserId : String) : TransactionStats :=
  let completed := transactions.filter (fun t => t.status == "completed")
  let pending := transactions.filter (fun t => t.status == "pending")
  let income := (completed.filter
      (fun t => t.receiver_user_id == currentUserId)).foldl
      (fun sum t => sum + t.amount) 0
  let expenses := (completed.filter
      (fun t => t.sender_user_id == currentUserId)).foldl
      (fun sum t => sum + t.amount) 0
  { balance := income - expenses
    income := income
    expenses := expenses
    pendingCount := pending.length }

/-! ## verifyOTP (transaction-handler.js lines 154-178) -/

/-- The body of a PATCH update request to the transaction endpoint;
absent fields are `none`. -/
structure TransactionUpdate where
  otp_code : Option String := none
  otp_verified : Option Bool := none
  status : Option String := none
  deriving DecidableEq

/-- The update body `TransactionHandler.verifyOTP` sends: it is built
from the user-entered code alone, with no access to the transaction's
originally generated `otp_code`. -/
def verifyOTPUpdate (otpCode : String) : TransactionUpdate :=
  { otp_code := some otpCode
    otp_verified := some true
    status := some "completed" }

/-- The full update request (target transaction id, body) issued by
`TransactionHandler.verifyOTP`.  The function receives only the
transaction identifier and the user-entered code, exactly like the
source method, so no comparison against a stored code is possible. -/
def verifyOTPRequest (transactionId otpCode : String) :
    String × TransactionUpdate :=
  (transactionId, verifyOTPUpdate otpCode)

/-! ## filterTransactions (transaction-handler.js lines 342-364) -/

/-- Substring search on lists of characters, modelling JavaScript
`String.prototype.includes`. -/
def containsSubAux : List Char → List Char → Bool
  | [], pat => pat.isPrefixOf ([] : List Char)
  | c :: rest, pat => pat.isPrefixOf (c :: rest) || containsSubAux rest pat

/-- JavaScript `s.includes(sub)`. -/
def strIncludes (s sub : String) : Bool :=
  containsSubAux s.toList sub.toList

/-- JavaScript `s.toLowerCase()` (character-wise lowering; the data the
handler lowers — identifiers, statuses, search input — is ASCII). -/
def strToLower (s : String) : String :=
  ⟨s.data.map Char.toLower⟩

/-- `TransactionHandler.filterTransactions` as a state transformer:
input is the stored `this.transactions` plus the two form values; the
result is `(rendered list, this.transactions after the call)`.  The
source temporarily assigns the filtered list to `this.transactions`,
renders, then restores the saved original reference. -/
def filterTransactionsStep (transactions : List Transaction)
    (searchValue filterValue : String) :
    List Transaction × List Transaction :=
  let searchTerm := strToLower searchValue
  let statusFilter := filterValue
  let filtered1 :=
    if searchTerm ≠ "" then
      transactions.filter (fun t =>
        strIncludes (strToLower t.id) searchTerm ||
        strIncludes (strToLower t.status) searchTerm)
    else transactions
  let filtered2 :=
    if statusFilter ≠ "all" then
      filtered1.filter (fun t => t.status == statusFilter)
    else filtered1
  let originalTransactions := transactions
  -- this.transactions := filtered2; renderTransactions();
  -- this.transactions := originalTransactions
  (filtered2, originalTransactions)

/-! ## validatePassword (api-service.js lines 282-302) -/

/-- The five boolean requirements of `QuantumPayAPI.validatePassword`. -/
structure PasswordRequirements where
  minLength : Bool
  hasUppercase : Bool
  hasLowercase : Bool
  hasNumbers : Bool
  hasSpecialChars : Bool
  deriving DecidableEq

/-- The character class of the regex used for `hasSpecialChars`
(the two brace characters are written via their code points). -/
def specialChars : List Char :=
  ['!', '@', '#', '$', '%', '^', '&', '*', '(', ')', ',', '.', '?',
   '\"', ':', Char.ofNat 123, Char.ofNat 125, '|', '<', '>']

/-- The `requirements` object computed by `validatePassword`; the regex
tests /[A-Z]/, /[a-z]/, /\d/ are ASCII ranges. -/
def passwordRequirements (password : String) : PasswordRequirements where
  minLength := decide (8 ≤ password.length)
  hasUppercase := password.toList.any (fun c => 'A' ≤ c && c ≤ 'Z')
  hasLowercase := password.toList.any (fun c => 'a' ≤ c && c ≤ 'z')
  hasNumbers := password.toList.any (fun c => '0' ≤ c && c ≤ '9')
  hasSpecialChars := password.toList.any (fun c => specialChars.contains c)

/-- `Object.values(requirements)` in declaration order. -/
def requirementValues (r : PasswordRequirements) : List Bool :=
  [r.minLength, r.hasUppercase, r.hasLowercase, r.hasNumbers,
   r.hasSpecialChars]

/-- `Object.values(requirements).filter(Boolean).length`. -/
def passedCount (r : PasswordRequirements) : Nat :=
  ((requirementValues r).filter (fun b => b)).length

/-- The object returned by `validatePassword`. -/
structure PasswordValidation where
  strength : String
  requirements : PasswordRequirements
  isValid : Bool
  deriving DecidableEq

/-- `QuantumPayAPI.validatePassword`. -/
def validatePassword (password : String) : PasswordValidation :=
  let requirements := passwordRequirements password
  let n := passedCount requirements
  let strength := if 4 ≤ n then "strong" else if 3 ≤ n then "medium" else "weak"
  { strength := strength
    requirements := requirements
    isValid := decide (4 ≤ n) }

/-! ## Session state and token operations (api-service.js lines 7-64) -/

/-- The session-relevant state of a `QuantumPayAPI` instance:
`authToken` is the instance field (`none` models null), `storedToken`
the durable value under the `quantum_auth_token` storage key (`none`
models an absent key). -/
structure APISession where
  authToken : Option String
  storedToken : Option String
  deriving DecidableEq

/-- The constructor: `this.authToken = localStorage.getItem(...)`. -/
def APISession.init (stored : Option String) : APISession :=
  { authToken := stored, storedToken := stored }

/-- `QuantumPayAPI.setAuthToken`. -/
def setAuthToken (s : APISession) (token : String) : APISession :=
  { authToken := some token, storedToken := some token }

/-- `QuantumPayAPI.clearAuthToken`. -/
def clearAuthToken (s : APISession) : APISession :=
  { authToken := none, storedToken := none }

/-- `QuantumPayAPI.isAuthenticated`: `!!this.authToken`. -/
def isAuthenticated (s : APISession) : Bool :=
  truthyStr s.authToken

/-- The session states reachable through the constructor (from an
arbitrary stored value) and the two token operations. -/
inductive ReachableSession : APISession → Prop
  | init (stored : Option String) : ReachableSession (APISession.init stored)
  | set (s : APISession) (token : String) :
      ReachableSession s → ReachableSession (setAuthToken s token)
  | clear (s : APISession) :
      ReachableSession s → ReachableSession (clearAuthToken s)

/-- What `TransactionHandler.init` does first (transaction-handler.js
lines 14-19). -/
inductive InitBehavior where
  | redirectToSignIn
  | authenticatedLoad
  deriving DecidableEq

/-- `TransactionHandler.init`: redirect to the sign-in page and return
before any fetch when not authenticated; otherwise proceed to the
authenticated fetches (`getCurrentUser`, `loadTransactions`). -/
def transactionHandlerInit (s : APISession) : InitBehavior :=
  if isAuthenticated s then .authenticatedLoad else .redirectToSignIn

/-! ## login / signup token handling (api-service.js lines 74-105) -/

/-- A response from the login or signup endpoint; `payload` abstracts
all fields other than `authToken`. -/
structure AuthResponse where
  authToken : Option String := none
  payload : String := ""
  deriving DecidableEq

/-- `QuantumPayAPI.login`, given the (already received) endpoint
response: stores the token only when `response.authToken` is truthy,
and returns the response unchanged. -/
def login (s : APISession) (response : AuthResponse) :
    APISession × AuthResponse :=
  let s1 := match response.authToken with
    | some t => if t ≠ "" then setAuthToken s t else s
    | none => s
  (s1, response)

/-- `QuantumPayAPI.signup`, given the endpoint response; its token
handling is identical to `login`. -/
def signup (s : APISession) (response : AuthResponse) :
    APISession × AuthResponse :=
  let s1 := match response.authToken with
    | some t => if t ≠ "" then setAuthToken s t else s
    | none => s
  (s1, response)

/-! ## makeRequest: request configuration (api-service.js lines 14-27) -/

/-- The `options` argument of `makeRequest`; `headers` is `none` when
the caller passes no `headers` property. -/
structure RequestOptions where
  method : Option String := none
  body : Option String := none
  headers : Option (List (String × String)) := none
  deriving DecidableEq

/-- Property lookup on a JavaScript object modelled as a key/value
list. -/
def getHeader (headers : List (String × String)) (key : String) :
    Option String :=
  (headers.find? (fun p => p.1 == key)).map (fun p => p.2)

/-- JavaScript object spread of two objects: keys of the first in
order (values overridden by the second where shared), then the new
keys of the second. -/
def spreadMerge (first second : List (String × String)) :
    List (String × String) :=
  first.map (fun p =>
    match getHeader second p.1 with
    | some v => (p.1, v)
    | none => p) ++
  second.filter (fun p => (getHeader first p.1).isNone)

/-- The `defaultHeaders` object of `makeRequest`: Content-Type always,
Authorization added when `this.authToken` is truthy. -/
def defaultHeaders (authToken : Option String) :
    List (String × String) :=
  let base := [("Content-Type", "application/json")]
  match authToken with
  | some t => if t ≠ "" then base ++ [("Authorization", "Bearer " ++ t)] else base
  | none => base

/-- The `headers` property of the final `config` object.  The source
builds `config` by listing a merged `headers` property first and then
spreading `options` after it, so when `options` itself carries a
`headers` property that later spread overwrites the merged object
entirely. -/
def configHeaders (authToken : Option String) (options : RequestOptions) :
    List (String × String) :=
  let merged := spreadMerge (defaultHeaders authToken)
    (options.headers.getD [])
  match options.headers with
  | some callerHeaders => callerHeaders
  | none => merged

/-! ## makeRequest: response handling (api-service.js lines 29-47) -/

/-- Outcome of attempting to parse the body of an error response as
JSON: the parse fails, or yields an object whose `message` field is
`none` when absent. -/
inductive ErrorBodyParse where
  | failed
  | parsed (message : Option String)
  deriving DecidableEq

/-- An HTTP response as observed by `makeRequest`: `ok` is `fetch`'s
success flag, `errorBody` the result of parsing the body as an error
object, `body` the parsed JSON body on the success path. -/
structure HttpResponse (α : Type) where
  ok : Bool
  status : Nat
  statusText : String
  errorBody : ErrorBodyParse
  body : α

/-- The error message thrown on a non-ok response:
`errorData.message || "HTTP <status>: <statusText>"`, where a failed
parse yields the empty object and a falsy (absent or empty) `message`
falls back. -/
def errorMessage {α : Type} (r : HttpResponse α) : String :=
  let fallback := "HTTP " ++ toString r.status ++ ": " ++ r.statusText
  match r.errorBody with
  | .parsed (some m) => if m == "" then fallback else m
  | _ => fallback

/-- The result of `makeRequest` on a received response: a single
normalized error on a non-ok status, `none` (null, unparsed) on 204,
and the parsed body on any other success status.  There is no retry:
the whole computation is one case split on one response. -/
def makeRequest {α : Type} (r : HttpResponse α) :
    Except String (Option α) :=
  if !r.ok then .error (errorMessage r)
  else if r.status == 204 then .ok none
  else .ok (some r.body)

/-! ## handleSendMoney (transaction-handler.js lines 101-152) -/

/-- The `transactionData` record built by `handleSendMoney`.  `amount`
is `parseFloat(...) * 100`; `none` models NaN (an unparsable amount
field). -/
structure TransactionCreateData where
  amount : Option ℚ
  currency : String
  receiver_user_id : Option String
  sender_user_id : String
  status : String
  transaction_date : Int
  otp_code : String
  otp_verified : Bool
  deriving DecidableEq

/-- Construction of `transactionData` from the form fields:
`currency || 'USD'`, `receiver_id || receiver_email`, and the
ambient current user id, clock and freshly generated OTP. -/
def buildTransactionData (amountField : Option ℚ)
    (currencyField receiverIdField receiverEmailField : Option String)
    (senderId : String) (now : Int) (otp : String) :
    TransactionCreateData :=
  { amount := amountField.map (fun a => a * 100)
    currency := match currencyField with
      | some c => if c ≠ "" then c else "USD"
      | none => "USD"
    receiver_user_id := jsStringOr receiverIdField receiverEmailField
    sender_user_id := senderId
    status := "pending"
    transaction_date := now
    otp_code := otp
    otp_verified := false }

/-- Outcome of a send-money submission: either a user-visible
validation error raised before any network call, or the creation
request handed to `createTransaction`. -/
inductive SendMoneyOutcome where
  | validationError (message : String)
  | createRequest (data : TransactionCreateData)
  deriving DecidableEq

/-- Whether an outcome is a validation error. -/
def isValidationError : SendMoneyOutcome → Bool
  | .validationError _ => true
  | .createRequest _ => false

/-- `TransactionHandler.handleSendMoney` up to the point a network
call is (or is not) issued.  The checks mirror the source:
`!transactionData.amount || transactionData.amount <= 0` (NaN and 0
are falsy) and then `!transactionData.receiver_user_id`. -/
def handleSendMoney (amountField : Option ℚ)
    (currencyField receiverIdField receiverEmailField : Option String)
    (senderId : String) (now : Int) (otp : String) : SendMoneyOutcome :=
  let d := buildTransactionData amountField currencyField receiverIdField
    receiverEmailField senderId now otp
  match d.amount with
  | none => .validationError "Please enter a valid amount"
  | some a =>
    if a = 0 ∨ a ≤ 0 then .validationError "Please enter a valid amount"
    else match d.receiver_user_id with
      | none => .validationError "Please enter recipient information"
      | some rcv =>
        if rcv = "" then .validationError "Please enter recipient information"
        else .createRequest d

/-- A sample non-ok response whose error body carries a message. -/
def sampleErrorResponse : HttpResponse Nat :=
  ⟨false, 401, "Unauthorized", .parsed (some "boom"), 0⟩

/-- A sample 204 response. -/
def sample204Response : HttpResponse Nat :=
  ⟨true, 204, "No Content", .failed, 0⟩

/-- A sample 200 response carrying a body. -/
def sample200Response : HttpResponse Nat :=
  ⟨true, 200, "OK", .failed, 7⟩

/-! ## handleStep3 (auth-handler.js lines 167-223) -/

/-- The signup draft parsed from per-tab storage; a missing field (in
particular every field, when no draft was stored and `'|| "\x7b\x7d"'`
parsed the empty object) is `none`. -/
structure SignupDraft where
  name : Option String := none
  email : Option String := none
  password : Option String := none
  deriving DecidableEq

/-- The draft obtained when no `quantum_signup_data` entry exists. -/
def emptyDraft : SignupDraft := {}

/-- Outcome of a step-3 submission: a user-visible error message
raised before any network call, or the signup request. -/
inductive Step3Outcome where
  | showError (message : String)
  | signupRequest (name email password : String)
  deriving DecidableEq

/-- `AuthHandler.handleStep3` up to the point the signup network call
is (or is not) issued: terms must be truthy, then each of
`signupData.name/email/password` must be truthy, else the distinct
incomplete-registration error is raised. -/
def handleStep3 (termsAccepted : Bool) (draft : SignupDraft) :
    Step3Outcome :=
  if !termsAccepted then
    .showError "You must accept the Terms of Service to continue"
  else if !truthyStr draft.name || !truthyStr draft.email ||
      !truthyStr draft.password then
    .showError "Registration data is incomplete. Please start over."
  else
    .signupRequest (draft.name.getD "") (draft.email.getD "")
      (draft.password.getD "")

/-! ## Theorems -/

/-- Claim C1: for every transaction identifier and every user-entered
OTP string, `verifyOTP` sends an update request setting
`otp_verified = true`, `status = "completed"` and `otp_code` equal to
the entered string; the update is built without any comparison against
the originally generated code (the request depends on nothing but the
two arguments), and for any two entered strings the issued updates
agree on the completion fields (`otp_verified`, `status`) and target
the same transaction. -/
theorem verifyOTP_unconditional_complete (tid s t : String) :
    verifyOTPRequest tid s =
      (tid, { otp_code := some s, otp_verified := some true,
              status := some "completed" }) ∧
    (verifyOTPRequest tid s).2.otp_verified =
      (verifyOTPRequest tid t).2.otp_verified ∧
    (verifyOTPRequest tid s).2.status = (verifyOTPRequest tid t).2.status ∧
    (verifyOTPRequest tid s).1 = (verifyOTPRequest tid t).1 :=
  ⟨rfl, rfl, rfl, rfl⟩

/-- Summing `amount` by `foldl` from an arbitrary start equals the
start plus the sum of the mapped amounts. -/
theorem foldl_amount_eq_sum (l : List Transaction) (init : Int) :
    l.foldl (fun sum t => sum + t.amount) init =
      init + (l.map (fun t => t.amount)).sum := by
  induction l generalizing init with
  | nil => simp
  | cons t ts ih => simp [ih]; ring

/-- Claim C2: `calculateTransactionStats` returns income = the sum of
`amount` over completed transactions received by the current user,
expenses = the sum over completed transactions sent by the current
user, balance = income − expenses, and pendingCount = the number of
pending transactions; a cancelled transaction contributes to none of
these (adding one leaves the statistics unchanged). -/
theorem calculateTransactionStats_spec (l : List Transaction)
    (uid : String) :
    (calculateTransactionStats l uid).income =
      ((l.filter (fun t =>
        t.status == "completed" && t.receiver_user_id == uid)).map
        (fun t => t.amount)).sum ∧
    (calculateTransactionStats l uid).expenses =
      ((l.filter (fun t =>
        t.status == "completed" && t.sender_user_id == uid)).map
        (fun t => t.amount)).sum ∧
    (calculateTransactionStats l uid).balance =
      (calculateTransactionStats l uid).income -
        (calculateTransactionStats l uid).expenses ∧
    (calculateTransactionStats l uid).pendingCount =
      l.countP (fun t => t.status == "pending") ∧
    (∀ t, t.status = "cancelled" →
      calculateTransactionStats (t :: l) uid =
        calculateTransactionStats l uid) := by
  refine ⟨?_, ?_, rfl, ?_, ?_⟩
  · simp [calculateTransactionStats, foldl_amount_eq_sum,
      List.filter_filter, Bool.and_comm]
  · simp [calculateTransactionStats, foldl_amount_eq_sum,
      List.filter_filter, Bool.and_comm]
  · simp [calculateTransactionStats, List.countP_eq_length_filter]
  · intro t ht
    have h1 : (t.status == "completed") = false := by simp [ht]
    have h2 : (t.status == "pending") = false := by simp [ht]
    simp [calculateTransactionStats, List.filter_cons, h1, h2]

/-- Witness for C2 at the spec's four-transaction fixture (two
completed incoming, one completed outgoing, one pending), with a
cancelled transaction prepended to check it contributes nothing. -/
theorem calculateTransactionStats_spec_witness :
    calculateTransactionStats
      ({ id := "t5", amount := 999, currency := "USD",
         sender_user_id := "u1", receiver_user_id := "u2",
         status := "cancelled", transaction_date := 4,
         otp_code := "111111", otp_verified := false } ::
       [{ id := "t1", amount := 100, currency := "USD",
          sender_user_id := "u2", receiver_user_id := "u1",
          status := "completed", transaction_date := 0,
          otp_code := "111111", otp_verified := true },
        { id := "t2", amount := 200, currency := "USD",
          sender_user_id := "u3", receiver_user_id := "u1",
          status := "completed", transaction_date := 1,
          otp_code := "111111", otp_verified := true },
        { id := "t3", amount := 50, currency := "USD",
          sender_user_id := "u1", receiver_user_id := "u2",
          status := "completed", transaction_date := 2,
          otp_code := "111111", otp_verified := true },
        { id := "t4", amount := 70, currency := "USD",
          sender_user_id := "u2", receiver_user_id := "u1",
          status := "pending", transaction_date := 3,
          otp_code := "111111", otp_verified := false }]) "u1" =
      calculateTransactionStats
       [{ id := "t1", amount := 100, currency := "USD",
          sender_user_id := "u2", receiver_user_id := "u1",
          status := "completed", transaction_date := 0,
          otp_code := "111111", otp_verified := true },
        { id := "t2", amount := 200, currency := "USD",
          sender_user_id := "u3", receiver_user_id := "u1",
          status := "completed", transaction_date := 1,
          otp_code := "111111", otp_verified := true },
        { id := "t3", amount := 50, currency := "USD",
          sender_user_id := "u1", receiver_user_id := "u2",
          status := "completed", transaction_date := 2,
          otp_code := "111111", otp_verified := true },
        { id := "t4", amount := 70, currency := "USD",
          sender_user_id := "u2", receiver_user_id := "u1",
          status := "pending", transaction_date := 3,
          otp_code := "111111", otp_verified := false }] "u1" ∧
    calculateTransactionStats
       [{ id := "t1", amount := 100, currency := "USD",
          sender_user_id := "u2", receiver_user_id := "u1",
          status := "completed", transaction_date := 0,
          otp_code := "111111", otp_verified := true },
        { id := "t2", amount := 200, currency := "USD",
          sender_user_id := "u3", receiver_user_id := "u1",
          status := "completed", transaction_date := 1,
          otp_code := "111111", otp_verified := true },
        { id := "t3", amount := 50, currency := "USD",
          sender_user_id := "u1", receiver_user_id := "u2",
          status := "completed", transaction_date := 2,
          otp_code := "111111", otp_verified := true },
        { id := "t4", amount := 70, currency := "USD",
          sender_user_id := "u2", receiver_user_id := "u1",
          status := "pending", transaction_date := 3,
          otp_code := "111111", otp_verified := false }] "u1" =
      { balance := 250, income := 300, expenses := 50, pendingCount := 1 } :=
  ⟨(calculateTransactionStats_spec _ "u1").2.2.2.2 _ rfl, by decide⟩

/-- Claim C3: `validatePassword` evaluates the five requirements
(length at least 8, an uppercase letter, a lowercase letter, a digit,
a special character), and with n the number satisfied classifies
strength as weak when n < 3, medium when n = 3, strong when n ≥ 4,
with `isValid` true iff n ≥ 4. -/
theorem validatePassword_spec (password : String) :
    ((passwordRequirements password).minLength = true ↔
      8 ≤ password.length) ∧
    ((passwordRequirements password).hasUppercase = true ↔
      ∃ c ∈ password.toList, 'A' ≤ c ∧ c ≤ 'Z') ∧
    ((passwordRequirements password).hasLowercase = true ↔
      ∃ c ∈ password.toList, 'a' ≤ c ∧ c ≤ 'z') ∧
    ((passwordRequirements password).hasNumbers = true ↔
      ∃ c ∈ password.toList, '0' ≤ c ∧ c ≤ '9') ∧
    ((passwordRequirements password).hasSpecialChars = true ↔
      ∃ c ∈ password.toList, c ∈ specialChars) ∧
    (validatePassword password).requirements =
      passwordRequirements password ∧
    (passedCount (passwordRequirements password) < 3 →
      (validatePassword password).strength = "weak") ∧
    (passedCount (passwordRequirements password) = 3 →
      (validatePassword password).strength = "medium") ∧
    (4 ≤ passedCount (passwordRequirements password) →
      (validatePassword password).strength = "strong") ∧
    ((validatePassword password).isValid = true ↔
      4 ≤ passedCount (passwordRequirements password)) := by
  refine ⟨?_, ?_, ?_, ?_, ?_, rfl, ?_, ?_, ?_, ?_⟩
  · simp [passwordRequirements]
  · simp [passwordRequirements, List.any_eq_true]
  · simp [passwordRequirements, List.any_eq_true]
  · simp [passwordRequirements, List.any_eq_true]
  · simp [passwordRequirements, List.any_eq_true]
  · intro h
    simp only [validatePassword]
    rw [if_neg (by omega), if_neg (by omega)]
  · intro h
    simp only [validatePassword]
    rw [if_neg (by omega), if_pos (by omega)]
  · intro h
    simp only [validatePassword]
    rw [if_pos h]
  · simp [validatePassword]

/-- Witness for C3 at a concrete password satisfying all five
requirements. -/
theorem validatePassword_spec_witness :
    (validatePassword "Aa1!xxxx").strength = "strong" ∧
    (validatePassword "Aa1!xxxx").isValid = true :=
  ⟨(validatePassword_spec "Aa1!xxxx").2.2.2.2.2.2.2.2.1 (by decide),
   (validatePassword_spec "Aa1!xxxx").2.2.2.2.2.2.2.2.2.mpr (by decide)⟩

/-- Claim C4 (code defect): when the caller supplies its own headers
object, the later `...options` spread in the `config` literal
overwrites the merged `headers` property, so the outgoing headers are
exactly the caller's and the defaults are dropped: with a token
present and a caller header of a different name, neither Content-Type
nor Authorization survives.  Without caller headers the defaults are
present as the claim states. -/
theorem makeRequest_headers_dropped :
    configHeaders (some "token-1")
      { method := some "POST", body := none,
        headers := some [("X-Request-Id", "abc")] } =
      [("X-Request-Id", "abc")] ∧
    getHeader (configHeaders (some "token-1")
      { method := some "POST", body := none,
        headers := some [("X-Request-Id", "abc")] }) "Content-Type" =
      none ∧
    getHeader (configHeaders (some "token-1")
      { method := some "POST", body := none,
        headers := some [("X-Request-Id", "abc")] }) "Authorization" =
      none ∧
    getHeader (configHeaders (some "token-1")
      { method := some "POST", body := none, headers := none })
      "Content-Type" = some "application/json" ∧
    getHeader (configHeaders (some "token-1")
      { method := some "POST", body := none, headers := none })
      "Authorization" = some "Bearer token-1" := by
  refine ⟨rfl, rfl, rfl, ?_, ?_⟩ <;> decide

/-- Claim C5: on a non-ok response `makeRequest` raises exactly one
error whose message is the `message` field of the parsed JSON error
body when that parse succeeds and yields a (non-empty) message, and
otherwise the string "HTTP <status>: <statusText>"; on status 204 it
returns the no-content result without a parsed body; on any other
success status it returns the parsed JSON body.  The computation
performs a single case split on a single response, so there is no
retry. -/
theorem makeRequest_response_spec {α : Type} (r : HttpResponse α) :
    (r.ok = false →
      (∀ m, r.errorBody = ErrorBodyParse.parsed (some m) → m ≠ "" →
        makeRequest r = .error m) ∧
      ((∀ m, r.errorBody = ErrorBodyParse.parsed (some m) → m = "") →
        makeRequest r =
          .error ("HTTP " ++ toString r.status ++ ": " ++ r.statusText))) ∧
    (r.ok = true → r.status = 204 → makeRequest r = .ok none) ∧
    (r.ok = true → r.status ≠ 204 → makeRequest r = .ok (some r.body)) := by
  refine ⟨fun hok => ⟨?_, ?_⟩, fun hok h204 => ?_, fun hok h204 => ?_⟩
  · intro m hm hne
    simp [makeRequest, hok, errorMessage, hm, hne]
  · intro hfall
    rcases hb : r.errorBody with _ | om
    · simp [makeRequest, hok, errorMessage, hb]
    · rcases om with _ | m
      · simp [makeRequest, hok, errorMessage, hb]
      · have : m = "" := hfall m hb
        simp [makeRequest, hok, errorMessage, hb, this]
  · simp [makeRequest, hok, h204]
  · simp [makeRequest, hok, h204]

/-- Witness for C5: a 401 response whose error body parses with a
non-empty message, a 204 response, and a 200 response with a body. -/
theorem makeRequest_response_spec_witness :
    makeRequest sampleErrorResponse = .error "boom" ∧
    makeRequest sample204Response = .ok none ∧
    makeRequest sample200Response = .ok (some 7) :=
  ⟨((makeRequest_response_spec sampleErrorResponse).1 rfl).1 "boom" rfl
      (by decide),
   (makeRequest_response_spec sample204Response).2.1 rfl rfl,
   (makeRequest_response_spec sample200Response).2.2 rfl (by decide)⟩

/-- Claim C6: a send-money submission whose computed amount is not a
positive number (unparsable, zero or negative) or whose recipient
identifier is missing or empty raises a user-visible validation error
and never reaches the creation request; the creation request is
produced exactly when the parsed amount is positive and the recipient
identifier resolves to a non-empty string. -/
theorem mul100_nonpos_iff (a : ℚ) :
    (a * 100 = 0 ∨ a * 100 ≤ 0) ↔ a ≤ 0 := by
  constructor
  · rintro (h | h) <;> nlinarith
  · intro h; right; nlinarith

/-- The validity check of `handleSendMoney` on the cents amount
`a * 100` is equivalent to checking `a ≤ 0` on the entered amount. -/
theorem handleSendMoney_eq (amountField : Option ℚ)
    (currencyField receiverIdField receiverEmailField : Option String)
    (senderId : String) (now : Int) (otp : String) :
    handleSendMoney amountField currencyField receiverIdField
        receiverEmailField senderId now otp =
      match amountField with
      | none => .validationError "Please enter a valid amount"
      | some a =>
        if a ≤ 0 then .validationError "Please enter a valid amount"
        else
          match jsStringOr receiverIdField receiverEmailField with
          | none => .validationError "Please enter recipient information"
          | some rcv =>
            if rcv = "" then
              .validationError "Please enter recipient information"
            else
              .createRequest (buildTransactionData amountField
                currencyField receiverIdField receiverEmailField
                senderId now otp) := by
  rcases amountField with _ | a
  · rfl
  · simp only [handleSendMoney, buildTransactionData, Option.map_some']
    by_cases hle : a ≤ 0
    · rw [if_pos ((mul100_nonpos_iff a).mpr hle), if_pos hle]
    · rw [if_neg (fun hc => hle ((mul100_nonpos_iff a).mp hc)),
        if_neg hle]

theorem handleSendMoney_spec (amountField : Option ℚ)
    (currencyField receiverIdField receiverEmailField : Option String)
    (senderId : String) (now : Int) (otp : String) :
    ((¬ (∃ a, amountField = some a ∧ 0 < a) ∨
        jsStringOr receiverIdField receiverEmailField = none ∨
        jsStringOr receiverIdField receiverEmailField = some "") →
      isValidationError (handleSendMoney amountField currencyField
        receiverIdField receiverEmailField senderId now otp) = true) ∧
    (∀ d, handleSendMoney amountField currencyField receiverIdField
        receiverEmailField senderId now otp =
          SendMoneyOutcome.createRequest d →
      (∃ a, amountField = some a ∧ 0 < a ∧ d.amount = some (a * 100)) ∧
      (∃ rcv, jsStringOr receiverIdField receiverEmailField = some rcv ∧
        rcv ≠ "" ∧ d.receiver_user_id = some rcv)) := by
  rw [handleSendMoney_eq] at *
  constructor
  · intro h
    rcases amountField with _ | a
    · simp [isValidationError]
    · by_cases hle : a ≤ 0
      · simp [hle, isValidationError]
      · have hpos : 0 < a := not_le.mp hle
        have hrcv : jsStringOr receiverIdField receiverEmailField = none ∨
            jsStringOr receiverIdField receiverEmailField = some "" := by
          rcases h with h | h | h
          · exact absurd ⟨a, rfl, hpos⟩ h
          · exact Or.inl h
          · exact Or.inr h
        rcases hrcv with h2 | h2 <;> simp [hle, h2, isValidationError]
  · intro d hd
    rcases amountField with _ | a
    · simp at hd
    · by_cases hle : a ≤ 0
      · simp [hle] at hd
      · rcases hr : jsStringOr receiverIdField receiverEmailField
          with _ | rcv
        · simp [hle, hr] at hd
        · by_cases hrcv : rcv = ""
          · simp [hle, hr, hrcv] at hd
          · simp [hle, hr, hrcv] at hd
            refine ⟨⟨a, rfl, not_le.mp hle, ?_⟩, ⟨rcv, rfl, hrcv, ?_⟩⟩
            · rw [← hd]; rfl
            · rw [← hd]; simp [buildTransactionData, hr]

/-- Witness for C6: a positive amount with a missing recipient raises
a validation error before any network call. -/
theorem handleSendMoney_spec_witness :
    isValidationError
      (handleSendMoney (some 5) (some "USD") none none "u1" 0 "123456") =
      true :=
  (handleSendMoney_spec (some 5) (some "USD") none none "u1" 0
    "123456").1 (Or.inr (Or.inl rfl))

/-- `s.includes("")` is true. -/
theorem strIncludes_empty (s : String) : strIncludes s "" = true := by
  unfold strIncludes
  cases s.toList <;> simp [containsSubAux, List.isPrefixOf]

/-- Claim C7: `filterTransactions` renders exactly the subset of
transactions whose id or status contains the (lower-cased) search term
and, when the filter is not "all", whose status equals the filter, and
it leaves the stored transaction list equal to its value before the
call, so a subsequent unfiltered render shows the full original
list. -/
theorem filterTransactions_spec (ts : List Transaction)
    (q f : String) :
    (filterTransactionsStep ts q f).1 =
      ts.filter (fun t =>
        (strIncludes (strToLower t.id) (strToLower q) ||
         strIncludes (strToLower t.status) (strToLower q)) &&
        (f == "all" || t.status == f)) ∧
    (filterTransactionsStep ts q f).2 = ts ∧
    (filterTransactionsStep (filterTransactionsStep ts q f).2
      "" "all").1 = ts := by
  have hq : strToLower "" = "" := rfl
  refine ⟨?_, rfl, by simp [filterTransactionsStep, hq]⟩
  unfold filterTransactionsStep
  by_cases h1 : strToLower q = "" <;> by_cases h2 : f = "all"
  · simp [h1, h2, strIncludes_empty]
  · have hf : (f == "all") = false := by simp [h2]
    simp [h1, h2, hf, strIncludes_empty]
  · simp [h1, h2, Bool.and_true]
  · have hf : (f == "all") = false := by simp [h2]
    simp [h1, h2, hf, List.filter_filter, Bool.and_comm]

/-- In every session state reachable through the constructor and the
token operations, the instance field mirrors the stored value. -/
theorem reachable_authToken_eq_stored (s : APISession)
    (h : ReachableSession s) : s.authToken = s.storedToken := by
  induction h with
  | init stored => rfl
  | set s token _ _ => rfl
  | clear s _ _ => rfl

/-- Counterexample to claim C8 as stated: `setAuthToken` called with
the empty string (a string, so a state reachable through the token
operations) stores a token value, yet `isAuthenticated` returns false,
because `!!this.authToken` treats the empty string as falsy. -/
theorem session_storedToken_counterexample :
    ReachableSession (setAuthToken (APISession.init none) "") ∧
    (setAuthToken (APISession.init none) "").storedToken.isSome = true ∧
    isAuthenticated (setAuthToken (APISession.init none) "") = false :=
  ⟨ReachableSession.set _ "" (ReachableSession.init none), rfl, rfl⟩

/-- Claim C8 as amended: in every reachable session state, the
presence of a stored non-empty token implies `isAuthenticated` returns
true, and whenever `isAuthenticated` is false the transaction
controller's initialization redirects to sign-in and performs no
authenticated fetch. -/
theorem session_invariant (s : APISession) (h : ReachableSession s) :
    (∀ t, s.storedToken = some t → t ≠ "" →
      isAuthenticated s = true) ∧
    (isAuthenticated s = false →
      transactionHandlerInit s = InitBehavior.redirectToSignIn) := by
  constructor
  · intro t ht hne
    have := reachable_authToken_eq_stored s h
    simp [isAuthenticated, truthyStr, this, ht, hne]
  · intro hfalse
    simp [transactionHandlerInit, hfalse]

/-- Witness for C8 (amended): a reachable state with a non-empty
stored token is authenticated, and the fresh state restored from an
absent key redirects. -/
theorem session_invariant_witness :
    isAuthenticated (setAuthToken (APISession.init none) "tok") = true ∧
    transactionHandlerInit (APISession.init none) =
      InitBehavior.redirectToSignIn :=
  ⟨(session_invariant _
      (ReachableSession.set _ "tok" (ReachableSession.init none))).1
      "tok" rfl (by decide),
   (session_invariant _ (ReachableSession.init none)).2 rfl⟩

/-- Claim C9: a step-3 submission with terms accepted whose stored
draft lacks any of name, email or password (each absent or empty
field is lacking; with no stored draft all three are absent) yields
the distinct incomplete-registration error and never reaches the
signup request; the signup request is made exactly when all three are
present and non-empty, with those values. -/
theorem handleStep3_spec (draft : SignupDraft) :
    ((truthyStr draft.name = false ∨ truthyStr draft.email = false ∨
        truthyStr draft.password = false) →
      handleStep3 true draft =
        Step3Outcome.showError
          "Registration data is incomplete. Please start over.") ∧
    (∀ n e p, handleStep3 true draft = Step3Outcome.signupRequest n e p →
      draft.name = some n ∧ draft.email = some e ∧
      draft.password = some p ∧ n ≠ "" ∧ e ≠ "" ∧ p ≠ "") := by
  constructor
  · intro h
    have hcond : (!truthyStr draft.name || !truthyStr draft.email ||
        !truthyStr draft.password) = true := by
      rcases h with h | h | h <;> simp [h]
    simp [handleStep3, hcond]
  · intro n e p hreq
    by_cases hn : truthyStr draft.name = true
    · by_cases he : truthyStr draft.email = true
      · by_cases hp : truthyStr draft.password = true
        · rcases hn' : draft.name with _ | nv <;>
            rw [hn'] at hn <;> simp [truthyStr] at hn
          rcases he' : draft.email with _ | ev <;>
            rw [he'] at he <;> simp [truthyStr] at he
          rcases hp' : draft.password with _ | pv <;>
            rw [hp'] at hp <;> simp [truthyStr] at hp
          simp [handleStep3, hn', he', hp', truthyStr, hn, he, hp]
            at hreq
          exact ⟨by rw [hreq.1], by rw [hreq.2.1], by rw [hreq.2.2],
            hreq.1 ▸ hn, hreq.2.1 ▸ he, hreq.2.2 ▸ hp⟩
        · simp [handleStep3, eq_false_of_ne_true hp] at hreq
      · simp [handleStep3, eq_false_of_ne_true he] at hreq
    · simp [handleStep3, eq_false_of_ne_true hn] at hreq

/-- Witness for C9: resuming step 3 with no stored draft (terms
accepted) raises the incomplete-registration error and issues no
signup request. -/
theorem handleStep3_spec_witness :
    handleStep3 true emptyDraft =
      Step3Outcome.showError
        "Registration data is incomplete. Please start over." :=
  (handleStep3_spec emptyDraft).1 (Or.inl rfl)

/-- Claim C10: when the response of the login or signup endpoint lacks
a truthy `authToken` (absent or empty), both operations return the
response unchanged and leave the session state — instance token and
stored token — exactly as before; the token is written exactly when
the response carries a non-empty `authToken`. -/
theorem auth_token_persistence (s : APISession) (r : AuthResponse) :
    ((∀ t, r.authToken = some t → t = "") →
      login s r = (s, r) ∧ signup s r = (s, r)) ∧
    (∀ t, r.authToken = some t → t ≠ "" →
      login s r = (setAuthToken s t, r) ∧
      signup s r = (setAuthToken s t, r)) := by
  constructor
  · intro h
    rcases hr : r.authToken with _ | t
    · simp [login, signup, hr]
    · have : t = "" := h t hr
      simp [login, signup, hr, this]
  · intro t ht hne
    simp [login, signup, ht, hne]

/-- Witness for C10: a response with no `authToken` leaves a prior
session untouched and is returned unchanged, and one with a non-empty
token stores it. -/
theorem auth_token_persistence_witness :
    login (APISession.init (some "old")) { authToken := none } =
      (APISession.init (some "old"), { authToken := none }) ∧
    signup (APISession.init none) { authToken := some "fresh" } =
      (setAuthToken (APISession.init none) "fresh",
       { authToken := some "fresh" }) :=
  ⟨((auth_token_persistence (APISession.init (some "old"))
      { authToken := none }).1 (fun t h => by cases h)).1,
   ((auth_token_persistence (APISession.init none)
      { authToken := some "fresh" }).2 "fresh" rfl (by decide)).2⟩

end QuantumPay
